import Mathlib

/-!
Verification of the smart-store cube builder and warehouse loader.

This file gives a shallow embedding of the two core scripts of the
repository —

* `src/project_7/create_cube_p7.py` (join, derived attributes, cube
  aggregation), and
* `src/src/analytics_project/etl_to_dw.py` (the SQLite warehouse loader) —

and proves or refutes the specification's claims about them.

Modelling conventions:

* DataFrames are `List`s of structure values; missing cells (pandas `NaN`)
  are `Option` `none`.
* pandas timestamps are `Int` nanoseconds since the epoch; `Timedelta.days`
  is floor division by the nanoseconds of one day (Python `//` = `Int.fdiv`,
  `%` = `Int.fmod`).
* `pandas.DataFrame.to_sql` on a raw `sqlite3` connection runs inside
  pandas' own per-call transaction: it commits the connection on success
  and rolls back to the last committed state on failure.  The loader model
  tracks a `committed` and a `pending` database state accordingly.
* SQLite primary-key uniqueness is checked when a batch reaches a table;
  a violation fails the whole `to_sql` call.
-/

namespace SmartStore

/-- `DataFrame.drop_duplicates(subset=[key], keep='first')`: keep the first
row for each key value, preserving input order. -/
def drop_duplicates {ρ : Type} (key : ρ → Int) : List ρ → List ρ
  | [] => []
  | r :: rs => r :: drop_duplicates key (rs.filter (fun x => key x != key r))
termination_by l => l.length
decreasing_by
  exact Nat.lt_succ_of_le (List.length_filter_le _ _)

theorem drop_duplicates_nil {ρ : Type} (key : ρ → Int) :
    drop_duplicates key [] = [] := by
  simp [drop_duplicates]

theorem drop_duplicates_cons {ρ : Type} (key : ρ → Int) (r : ρ) (rs : List ρ) :
    drop_duplicates key (r :: rs) =
      r :: drop_duplicates key (rs.filter (fun x => key x != key r)) := by
  simp [drop_duplicates]

/-- Every surviving row comes from the input batch. -/
theorem drop_duplicates_subset {ρ : Type} (key : ρ → Int) :
    ∀ (l : List ρ) (r : ρ), r ∈ drop_duplicates key l → r ∈ l
  | [], r, h => by simp [drop_duplicates] at h
  | a :: rs, r, h => by
    rw [drop_duplicates_cons] at h
    rcases List.mem_cons.mp h with h | h
    · exact h ▸ List.mem_cons_self _ _
    · exact List.mem_cons_of_mem _
        (List.mem_of_mem_filter (drop_duplicates_subset key _ r h))
termination_by l => l.length
decreasing_by
  exact Nat.lt_succ_of_le (List.length_filter_le _ _)

/-- After deduplication, key values are pairwise distinct. -/
theorem drop_duplicates_pairwise {ρ : Type} (key : ρ → Int) :
    ∀ l : List ρ, (drop_duplicates key l).Pairwise (fun a b => key a ≠ key b)
  | [] => by simp [drop_duplicates]
  | a :: rs => by
    rw [drop_duplicates_cons]
    refine List.pairwise_cons.mpr ⟨?_, drop_duplicates_pairwise key _⟩
    intro b hb
    have hbf := drop_duplicates_subset key _ b hb
    have hmem := List.of_mem_filter hbf
    simp only [bne_iff_ne, ne_eq] at hmem
    exact fun h => hmem h.symm
termination_by l => l.length
decreasing_by
  exact Nat.lt_succ_of_le (List.length_filter_le _ _)

/-- The deduplicated key column has no duplicates. -/
theorem drop_duplicates_keys_nodup {ρ : Type} (key : ρ → Int) (l : List ρ) :
    ((drop_duplicates key l).map key).Nodup := by
  have h := drop_duplicates_pairwise key l
  exact (List.pairwise_map).mpr h

theorem find?_filter_of_ne {ρ : Type} (key : ρ → Int) (k k0 : Int)
    (hne : k ≠ k0) :
    ∀ l : List ρ,
      (l.filter (fun x => key x != k0)).find? (fun r => key r == k) =
        l.find? (fun r => key r == k)
  | [] => rfl
  | a :: rs => by
    have ih := find?_filter_of_ne key k k0 hne rs
    have h3 : (k0 == k) = false := beq_eq_false_iff_ne.mpr (Ne.symm hne)
    by_cases hb : key a = k0
    · simp [List.filter_cons, List.find?_cons, hb, h3, ih]
    · by_cases ha : key a = k
      · subst ha
        simp [List.filter_cons, List.find?_cons, hb]
      · simp [List.filter_cons, List.find?_cons, hb, ha, ih]

/-- The rows with key `k` surviving deduplication are exactly the first
input row with key `k` (or none, if the key does not occur). -/
theorem drop_duplicates_filter_eq_find? {ρ : Type} (key : ρ → Int) (k : Int) :
    ∀ l : List ρ,
      (drop_duplicates key l).filter (fun r => key r == k) =
        (l.find? (fun r => key r == k)).toList
  | [] => by simp [drop_duplicates]
  | a :: rs => by
    rw [drop_duplicates_cons]
    by_cases ha : key a = k
    · subst ha
      have hrest :
          (drop_duplicates key (rs.filter (fun x => key x != key a))).filter
            (fun r => key r == key a) = [] := by
        rw [List.filter_eq_nil_iff]
        intro b hb
        have hbf := drop_duplicates_subset key _ b hb
        have hmem := List.of_mem_filter hbf
        simp only [bne_iff_ne, ne_eq] at hmem
        simp [hmem]
      simp [List.filter_cons, List.find?_cons, hrest]
    · have ih := drop_duplicates_filter_eq_find? key k
        (rs.filter (fun x => key x != key a))
      rw [find?_filter_of_ne key k (key a) (fun h => ha h.symm) rs] at ih
      simp [List.filter_cons, List.find?_cons, ha, ih]
termination_by l => l.length
decreasing_by
  exact Nat.lt_succ_of_le (List.length_filter_le _ _)

/-! ## Warehouse loader (`src/src/analytics_project/etl_to_dw.py`)

Rows carry their primary-key column explicitly; all other CSV columns are
an opaque `payload` string (they are moved verbatim and never inspected by
the loader). -/

/-- A row of `customers_prepared.csv`; `customer_id` is the `customer`
table's primary key. -/
structure CustomerRow where
  customer_id : Int
  payload : String
deriving DecidableEq

/-- A row of `products_prepared.csv`; `product_id` is the `product` table's
primary key. -/
structure ProductRow where
  product_id : Int
  payload : String
deriving DecidableEq

/-- A row of `sales_prepared.csv`; `sales_id` is the `sale` table's primary
key. -/
structure SaleRow where
  sales_id : Int
  payload : String
deriving DecidableEq

/-- The persisted SQLite warehouse file: whether the schema exists, and the
contents of the three tables. -/
structure DB where
  schemaCreated : Bool
  customer : List CustomerRow
  product : List ProductRow
  sale : List SaleRow
deriving DecidableEq

/-- A freshly created, empty database file. -/
def emptyDB : DB := ⟨false, [], [], []⟩

/-- An open SQLite connection: the durable committed state, plus the
pending state including uncommitted statements.  Closing the connection
without committing discards `pending`. -/
structure Conn where
  committed : DB
  pending : DB
deriving DecidableEq

/-- Errors surfaced by the load. -/
inductive LoadError where
  | uniqueness
deriving DecidableEq

/-- `create_schema`: three `CREATE TABLE IF NOT EXISTS` statements.
DDL joins the open transaction (Python ≥ 3.6 sqlite3 does not autocommit
before DDL), so only `pending` changes. -/
def create_schema (conn : Conn) : Conn :=
  { conn with pending := { conn.pending with schemaCreated := true } }

/-- `df.to_sql("customer", conn, if_exists="append")` on a raw sqlite3
connection: pandas runs the append inside its own transaction, committing
on success; a primary-key uniqueness violation fails the call and rolls
the connection back to its last committed state. -/
def to_sql_customer (rows : List CustomerRow) (conn : Conn) :
    Except (Conn × LoadError) Conn :=
  if ((conn.pending.customer ++ rows).map (·.customer_id)).Nodup then
    let db := { conn.pending with customer := conn.pending.customer ++ rows }
    .ok ⟨db, db⟩
  else
    .error (⟨conn.committed, conn.committed⟩, .uniqueness)

/-- `df.to_sql("product", ...)`, same transaction semantics. -/
def to_sql_product (rows : List ProductRow) (conn : Conn) :
    Except (Conn × LoadError) Conn :=
  if ((conn.pending.product ++ rows).map (·.product_id)).Nodup then
    let db := { conn.pending with product := conn.pending.product ++ rows }
    .ok ⟨db, db⟩
  else
    .error (⟨conn.committed, conn.committed⟩, .uniqueness)

/-- `df.to_sql("sale", ...)`, same transaction semantics.  Foreign keys are
not enforced (sqlite3 leaves `PRAGMA foreign_keys` off). -/
def to_sql_sale (rows : List SaleRow) (conn : Conn) :
    Except (Conn × LoadError) Conn :=
  if ((conn.pending.sale ++ rows).map (·.sales_id)).Nodup then
    let db := { conn.pending with sale := conn.pending.sale ++ rows }
    .ok ⟨db, db⟩
  else
    .error (⟨conn.committed, conn.committed⟩, .uniqueness)

/-- `df[df.duplicated(subset=[key], keep=False)]`: all rows whose key value
occurs more than once in the batch. -/
def duplicated_rows {ρ : Type} (key : ρ → Int) (l : List ρ) : List ρ :=
  l.filter (fun r => 2 ≤ l.countP (fun x => key x == key r))

/-- `insert_customers`: log duplicates, and when any exist drop all but the
first row per `customer_id`, then append to the `customer` table. -/
def insert_customers (customers_df : List CustomerRow) (conn : Conn) :
    Except (Conn × LoadError) Conn :=
  let duplicates := duplicated_rows (·.customer_id) customers_df
  let df :=
    if 0 < duplicates.length then
      drop_duplicates (·.customer_id) customers_df
    else customers_df
  to_sql_customer df conn

/-- `insert_products`: appends the batch as-is — no duplicate check. -/
def insert_products (products_df : List ProductRow) (conn : Conn) :
    Except (Conn × LoadError) Conn :=
  to_sql_product products_df conn

/-- `insert_sales`: like `insert_customers`, deduplicates on `sales_id`
before appending. -/
def insert_sales (sales_df : List SaleRow) (conn : Conn) :
    Except (Conn × LoadError) Conn :=
  let duplicates := duplicated_rows (·.sales_id) sales_df
  let df :=
    if 0 < duplicates.length then
      drop_duplicates (·.sales_id) sales_df
    else sales_df
  to_sql_sale df conn

/-- Result of one `load_data_to_db` run: the final durable database state
after the connection is closed, tagged with success or the raised error. -/
inductive LoadResult where
  | ok (db : DB)
  | error (db : DB) (e : LoadError)
deriving DecidableEq

/-- The durable database state a run leaves behind. -/
def finalDB : LoadResult → DB
  | .ok db => db
  | .error db _ => db

/-- `load_data_to_db`: unlink any existing database file, connect (creating
a fresh file), create the schema, insert the three prepared CSVs, commit,
and close the connection in `finally` (discarding any uncommitted pending
state when an insert raised). -/
def load_data_to_db (prev : Option DB) (customers_df : List CustomerRow)
    (products_df : List ProductRow) (sales_df : List SaleRow) : LoadResult :=
  -- `if DB_PATH.exists(): DB_PATH.unlink()`, then `sqlite3.connect(DB_PATH)`
  -- creates a fresh file: the previous store is discarded either way
  let conn0 : Conn :=
    match prev with
    | some _ => ⟨emptyDB, emptyDB⟩
    | none => ⟨emptyDB, emptyDB⟩
  let conn1 := create_schema conn0
  match insert_customers customers_df conn1 with
  | .error (conn, e) => .error conn.committed e
  | .ok conn2 =>
    match insert_products products_df conn2 with
    | .error (conn, e) => .error conn.committed e
    | .ok conn3 =>
      match insert_sales sales_df conn3 with
      | .error (conn, e) => .error conn.committed e
      | .ok conn4 => .ok conn4.committed

/-! ### Loader lemmas -/

/-- A batch whose keys are already distinct is unchanged by deduplication. -/
theorem drop_duplicates_eq_self_of_nodup {ρ : Type} (key : ρ → Int) :
    ∀ l : List ρ, (l.map key).Nodup → drop_duplicates key l = l
  | [], _ => drop_duplicates_nil key
  | a :: rs, h => by
    rw [List.map_cons, List.nodup_cons] at h
    have hfilter : rs.filter (fun x => key x != key a) = rs := by
      rw [List.filter_eq_self]
      intro b hb
      simp only [bne_iff_ne, ne_eq]
      intro heq
      exact h.1 (heq ▸ List.mem_map_of_mem key hb)
    rw [drop_duplicates_cons, hfilter,
      drop_duplicates_eq_self_of_nodup key rs h.2]

/-- Counting key occurrences through `map`. -/
theorem count_map_key {ρ : Type} (key : ρ → Int) (l : List ρ) (k : Int) :
    (l.map key).count k = l.countP (fun x => key x == k) := by
  induction l with
  | nil => rfl
  | cons a t ih =>
    simp only [List.map_cons, List.count_cons, List.countP_cons, ih]

/-- If `duplicated(keep=False)` selects nothing, the key column is
duplicate-free. -/
theorem nodup_of_duplicated_rows_nil {ρ : Type} (key : ρ → Int)
    (l : List ρ) (h : duplicated_rows key l = []) : (l.map key).Nodup := by
  rw [List.nodup_iff_count_le_one]
  intro k
  by_cases hk : k ∈ l.map key
  · obtain ⟨r, hr, hrk⟩ := List.mem_map.mp hk
    by_contra hgt
    have h2 : 2 ≤ l.countP (fun x => key x == k) := by
      rw [← count_map_key]
      omega
    have : r ∈ duplicated_rows key l := by
      rw [duplicated_rows, List.mem_filter]
      exact ⟨hr, by simpa [hrk] using h2⟩
    simp [h] at this
  · simp [List.count_eq_zero_of_not_mem hk]

/-- A key occurring at least twice in a batch refutes `Nodup` of the key
column. -/
theorem not_nodup_of_two_le_countP {ρ : Type} (key : ρ → Int)
    (l : List ρ) (k : Int) (h : 2 ≤ l.countP (fun x => key x == k)) :
    ¬ (l.map key).Nodup := by
  intro hnd
  have := List.nodup_iff_count_le_one.mp hnd k
  rw [count_map_key] at this
  omega

/-- `insert_customers` always behaves as "deduplicate, then append": when
the duplicate check finds nothing, dropping duplicates is the identity. -/
theorem insert_customers_eq (customers_df : List CustomerRow) (conn : Conn) :
    insert_customers customers_df conn =
      to_sql_customer (drop_duplicates (·.customer_id) customers_df) conn := by
  rw [insert_customers]
  by_cases h : 0 < (duplicated_rows (·.customer_id) customers_df).length
  · simp [h]
  · have hnil : duplicated_rows (·.customer_id) customers_df = [] := by
      rcases List.eq_nil_or_concat (duplicated_rows (·.customer_id)
        customers_df) with hn | ⟨t, a, hc⟩
      · exact hn
      · exact absurd (by simp [hc]) h
    rw [drop_duplicates_eq_self_of_nodup _ _
      (nodup_of_duplicated_rows_nil _ _ hnil)]
    simp [h]

/-- `insert_sales` always behaves as "deduplicate, then append". -/
theorem insert_sales_eq (sales_df : List SaleRow) (conn : Conn) :
    insert_sales sales_df conn =
      to_sql_sale (drop_duplicates (·.sales_id) sales_df) conn := by
  rw [insert_sales]
  by_cases h : 0 < (duplicated_rows (·.sales_id) sales_df).length
  · simp [h]
  · have hnil : duplicated_rows (·.sales_id) sales_df = [] := by
      rcases List.eq_nil_or_concat (duplicated_rows (·.sales_id)
        sales_df) with hn | ⟨t, a, hc⟩
      · exact hn
      · exact absurd (by simp [hc]) h
    rw [drop_duplicates_eq_self_of_nodup _ _
      (nodup_of_duplicated_rows_nil _ _ hnil)]
    simp [h]

/-- Full characterization of one loader run: the customer and sale batches
are deduplicated and always insert; the product batch inserts as-is when
its keys are distinct, and otherwise the run stops at the product step with
a uniqueness error, leaving schema and customers committed. -/
theorem load_characterization (prev : Option DB)
    (customers_df : List CustomerRow) (products_df : List ProductRow)
    (sales_df : List SaleRow) :
    load_data_to_db prev customers_df products_df sales_df =
      if (products_df.map (·.product_id)).Nodup then
        .ok ⟨true, drop_duplicates (·.customer_id) customers_df,
          products_df, drop_duplicates (·.sales_id) sales_df⟩
      else
        .error ⟨true, drop_duplicates (·.customer_id) customers_df, [], []⟩
          .uniqueness := by
  have hc := drop_duplicates_keys_nodup (·.customer_id) customers_df
  have hs := drop_duplicates_keys_nodup (·.sales_id) sales_df
  by_cases hp : (products_df.map (·.product_id)).Nodup <;>
    cases prev <;>
    simp [load_data_to_db, insert_customers_eq, insert_sales_eq,
      insert_products, to_sql_customer, to_sql_product, to_sql_sale,
      create_schema, emptyDB, hc, hs, hp]

/-! ### Warehouse claims -/

/-- C2, counterexample: a run in which the product batch carries a
duplicate `product_id` fails, yet leaves a committed store holding the
schema and the customer rows — neither "everything committed" nor "nothing
committed".  pandas `to_sql` commits per call, so the customer insert is
durable before the product insert fails. -/
theorem load_all_or_nothing_counterexample :
    load_data_to_db none [⟨1, "c"⟩] [⟨5, "p"⟩, ⟨5, "q"⟩] [] =
      .error ⟨true, [⟨1, "c"⟩], [], []⟩ .uniqueness ∧
    (⟨true, [⟨1, "c"⟩], [], []⟩ : DB) ≠ emptyDB := by
  constructor
  · rw [load_characterization, if_neg (by decide)]
    simp [drop_duplicates_cons, drop_duplicates_nil]
  · decide

/-- C2 (amended): the loader's commits are per-insert, not all-or-nothing.
A run whose product keys are distinct commits the schema and all three
(deduplicated) tables; a run with a duplicate product key commits the
schema and the customer table, then aborts with a uniqueness error,
discarding the product and sale inserts. -/
theorem load_commit_granularity (prev : Option DB)
    (customers_df : List CustomerRow) (products_df : List ProductRow)
    (sales_df : List SaleRow) :
    ((products_df.map (·.product_id)).Nodup →
      load_data_to_db prev customers_df products_df sales_df =
        .ok ⟨true, drop_duplicates (·.customer_id) customers_df,
          products_df, drop_duplicates (·.sales_id) sales_df⟩) ∧
    (¬ (products_df.map (·.product_id)).Nodup →
      load_data_to_db prev customers_df products_df sales_df =
        .error ⟨true, drop_duplicates (·.customer_id) customers_df, [], []⟩
          .uniqueness) := by
  rw [load_characterization]
  constructor <;> intro hp <;> simp [hp]

/-- C2 witness: a concrete clean run commits all three tables. -/
theorem load_commit_granularity_witness :
    load_data_to_db none [⟨1, "a"⟩] [⟨5, "x"⟩] [⟨9, "s"⟩] =
      .ok ⟨true, [⟨1, "a"⟩], [⟨5, "x"⟩], [⟨9, "s"⟩]⟩ := by
  have h := (load_commit_granularity none [⟨1, "a"⟩] [⟨5, "x"⟩]
    [⟨9, "s"⟩]).1 (by decide)
  simpa [drop_duplicates_cons, drop_duplicates_nil] using h

/-- C3: inserting a customer batch in which some `customer_id` occurs two
or more times succeeds (duplicates are non-fatal), and the persisted
customer table holds exactly one row with that key — the first occurrence
in input order. -/
theorem insert_customers_keeps_first (customers_df : List CustomerRow)
    (k : Int)
    (h : 2 ≤ customers_df.countP (fun c => c.customer_id == k)) :
    ∃ r,
      customers_df.find? (fun c => c.customer_id == k) = some r ∧
      insert_customers customers_df (create_schema ⟨emptyDB, emptyDB⟩) =
        .ok ⟨⟨true, drop_duplicates (·.customer_id) customers_df, [], []⟩,
          ⟨true, drop_duplicates (·.customer_id) customers_df, [], []⟩⟩ ∧
      (drop_duplicates (·.customer_id) customers_df).filter
        (fun c => c.customer_id == k) = [r] ∧
      (drop_duplicates (·.customer_id) customers_df).countP
        (fun c => c.customer_id == k) = 1 := by
  have hfind : (customers_df.find? (fun c => c.customer_id == k)).isSome := by
    rw [List.find?_isSome]
    have hpos : 0 < customers_df.countP (fun c => c.customer_id == k) := by
      omega
    simpa using List.countP_pos_iff.mp hpos
  obtain ⟨r, hr⟩ := Option.isSome_iff_exists.mp hfind
  have hnodup := drop_duplicates_keys_nodup (·.customer_id) customers_df
  have hfilter := drop_duplicates_filter_eq_find? (·.customer_id) k
    customers_df
  rw [hr] at hfilter
  refine ⟨r, hr, ?_, hfilter, ?_⟩
  · rw [insert_customers_eq, to_sql_customer]
    simp [create_schema, emptyDB, hnodup]
  · rw [List.countP_eq_length_filter, hfilter]
    rfl

/-- C3 witness: batch `[(1, a), (2, b), (1, c)]` keeps `(1, a)` as the one
surviving row for key 1. -/
theorem insert_customers_keeps_first_witness :
    2 ≤ ([⟨1, "a"⟩, ⟨2, "b"⟩, ⟨1, "c"⟩] : List CustomerRow).countP
      (fun c => c.customer_id == 1) ∧
    ∃ r,
      ([⟨1, "a"⟩, ⟨2, "b"⟩, ⟨1, "c"⟩] : List CustomerRow).find?
        (fun c => c.customer_id == 1) = some r ∧
      insert_customers [⟨1, "a"⟩, ⟨2, "b"⟩, ⟨1, "c"⟩]
        (create_schema ⟨emptyDB, emptyDB⟩) =
        .ok ⟨⟨true, drop_duplicates (·.customer_id)
            ([⟨1, "a"⟩, ⟨2, "b"⟩, ⟨1, "c"⟩] : List CustomerRow), [], []⟩,
          ⟨true, drop_duplicates (·.customer_id)
            ([⟨1, "a"⟩, ⟨2, "b"⟩, ⟨1, "c"⟩] : List CustomerRow), [], []⟩⟩ ∧
      (drop_duplicates (·.customer_id)
        ([⟨1, "a"⟩, ⟨2, "b"⟩, ⟨1, "c"⟩] : List CustomerRow)).filter
        (fun c => c.customer_id == 1) = [r] ∧
      (drop_duplicates (·.customer_id)
        ([⟨1, "a"⟩, ⟨2, "b"⟩, ⟨1, "c"⟩] : List CustomerRow)).countP
        (fun c => c.customer_id == 1) = 1 :=
  ⟨by decide, insert_customers_keeps_first [⟨1, "a"⟩, ⟨2, "b"⟩, ⟨1, "c"⟩] 1
    (by decide)⟩

/-- C7: rerunning the loader against the store the previous run left
behind, with identical inputs, yields the identical final state — the
store is unlinked and rebuilt from scratch, so the result never depends on
the pre-existing store. -/
theorem load_idempotent_rebuild (prev : Option DB)
    (customers_df : List CustomerRow) (products_df : List ProductRow)
    (sales_df : List SaleRow) :
    load_data_to_db
      (some (finalDB (load_data_to_db prev customers_df products_df
        sales_df))) customers_df products_df sales_df =
      load_data_to_db prev customers_df products_df sales_df := by
  cases prev <;> rfl

/-- C8: product insertion is not deduplicated, so a product batch with a
repeated `product_id` reaches the store, fails the primary-key uniqueness
check, and aborts the load with the product and sale tables left empty. -/
theorem load_duplicate_product_aborts (prev : Option DB)
    (customers_df : List CustomerRow) (products_df : List ProductRow)
    (sales_df : List SaleRow) (k : Int)
    (h : 2 ≤ products_df.countP (fun p => p.product_id == k)) :
    load_data_to_db prev customers_df products_df sales_df =
      .error ⟨true, drop_duplicates (·.customer_id) customers_df, [], []⟩
        .uniqueness := by
  have hnd := not_nodup_of_two_le_countP (·.product_id) products_df k h
  rw [load_characterization, if_neg hnd]

/-- C8 witness: two products with id 5 abort a concrete run with a
uniqueness error. -/
theorem load_duplicate_product_aborts_witness :
    2 ≤ ([⟨5, "x"⟩, ⟨5, "y"⟩] : List ProductRow).countP
      (fun p => p.product_id == 5) ∧
    load_data_to_db none [] [⟨5, "x"⟩, ⟨5, "y"⟩] [] =
      .error ⟨true, [], [], []⟩ .uniqueness := by
  constructor
  · decide
  · have h := load_duplicate_product_aborts none [] [⟨5, "x"⟩, ⟨5, "y"⟩] []
      5 (by decide)
    simpa [drop_duplicates_nil] using h

/-! ## Cube builder (`src/project_7/create_cube_p7.py`)

The script reads three CSVs, inner-merges them, derives tenure columns,
and aggregates.  Key columns (`customer_id`, `product_id`, `sales_id`)
are integers; the other columns may be missing (`Option`). -/

/-- A row of `sales_cube_prep.csv` (columns as selected by `usecols`). -/
structure SaleSrc where
  product_id : Int
  customer_id : Int
  sales_id : Int
  sales_amount : Option Rat
  city : Option String
deriving DecidableEq

/-- A row of `customer_cube_prep.csv`; `join_date` is the raw CSV cell
(missing or a string, prior to `pd.to_datetime`). -/
structure CustomerSrc where
  customer_id : Int
  join_date : Option String
deriving DecidableEq

/-- A row of `products_cube_prep.csv`. -/
structure ProductSrc where
  category : Option String
  product_id : Int
deriving DecidableEq

/-- A row of the merged frame: the sale together with its matched customer
and product rows. -/
structure MergedRow where
  sale : SaleSrc
  cust : CustomerSrc
  prod : ProductSrc
deriving DecidableEq

/-- `sales.merge(customers, on='customer_id')`: inner join — each sale is
paired with every customer row sharing its `customer_id`. -/
def merge_customers (sales : List SaleSrc) (customers : List CustomerSrc) :
    List (SaleSrc × CustomerSrc) :=
  sales.flatMap fun s =>
    customers.filterMap fun c =>
      if s.customer_id = c.customer_id then some (s, c) else none

/-- `cube_df = sales.merge(customers, on='customer_id')
.merge(products, on='product_id')`. -/
def cube_df (sales : List SaleSrc) (customers : List CustomerSrc)
    (products : List ProductSrc) : List MergedRow :=
  (merge_customers sales customers).flatMap fun sc =>
    products.filterMap fun p =>
      if sc.1.product_id = p.product_id then some ⟨sc.1, sc.2, p⟩ else none

/-- C4: join soundness — every merged row's customer and product come from
the source tables and match the sale's keys; and a sale whose customer id
(or product id) matches no source row contributes to no merged row at
all. -/
theorem cube_df_join_sound (sales : List SaleSrc)
    (customers : List CustomerSrc) (products : List ProductSrc) :
    (∀ m ∈ cube_df sales customers products,
      m.cust ∈ customers ∧ m.prod ∈ products ∧
      m.sale.customer_id = m.cust.customer_id ∧
      m.sale.product_id = m.prod.product_id) ∧
    (∀ s ∈ sales,
      ((∀ c ∈ customers, c.customer_id ≠ s.customer_id) ∨
        (∀ p ∈ products, p.product_id ≠ s.product_id)) →
      ∀ m ∈ cube_df sales customers products, m.sale ≠ s) := by
  have hmem : ∀ m ∈ cube_df sales customers products,
      m.sale ∈ sales ∧ m.cust ∈ customers ∧ m.prod ∈ products ∧
      m.sale.customer_id = m.cust.customer_id ∧
      m.sale.product_id = m.prod.product_id := by
    intro m hm
    simp only [cube_df, merge_customers, List.mem_flatMap,
      List.mem_filterMap] at hm
    obtain ⟨⟨s, c⟩, ⟨s0, hs0, c0, hc0, hif1⟩, p, hp, hif2⟩ := hm
    split at hif1
    case isFalse => exact absurd hif1 (by simp)
    case isTrue h1 =>
      obtain ⟨hs, hc⟩ := Prod.mk.injEq .. ▸ (Option.some.injEq .. ▸ hif1)
      subst hs hc
      split at hif2
      case isFalse => exact absurd hif2 (by simp)
      case isTrue h2 =>
        cases Option.some.injEq .. ▸ hif2
        exact ⟨hs0, hc0, hp, h1, h2⟩
  refine ⟨fun m hm => ((hmem m hm).2), ?_⟩
  intro s _ hmiss m hm heq
  obtain ⟨_, hc, hp, h1, h2⟩ := hmem m hm
  rcases hmiss with hmc | hmp
  · exact hmc m.cust hc (heq ▸ h1).symm
  · exact hmp m.prod hp (heq ▸ h2).symm

/-- C4 witness: in a concrete join, the sale with an unmatched customer id
appears in no merged row, while the matched sale does appear. -/
theorem cube_df_join_sound_witness :
    (∀ m ∈ cube_df
        [⟨5, 10, 1, some 42, some "Lyon"⟩, ⟨5, 99, 2, some 7, some "Nice"⟩]
        [⟨10, some "2023-01-01"⟩] [⟨some "Books", 5⟩],
      m.sale ≠ ⟨5, 99, 2, some 7, some "Nice"⟩) ∧
    cube_df
        [⟨5, 10, 1, some 42, some "Lyon"⟩, ⟨5, 99, 2, some 7, some "Nice"⟩]
        [⟨10, some "2023-01-01"⟩] [⟨some "Books", 5⟩] ≠ [] := by
  constructor
  · exact (cube_df_join_sound
      [⟨5, 10, 1, some 42, some "Lyon"⟩, ⟨5, 99, 2, some 7, some "Nice"⟩]
      [⟨10, some "2023-01-01"⟩] [⟨some "Books", 5⟩]).2
      ⟨5, 99, 2, some 7, some "Nice"⟩ (by simp)
      (Or.inl (by decide))
  · decide

/-! ### Derived attributes

pandas timestamps are `int64` nanoseconds; `Timedelta.days` and Python's
`//` and `%` are floor division and floor modulus (`Int.fdiv` /
`Int.fmod`). -/

/-- Nanoseconds in one day, the resolution of a pandas `Timestamp`. -/
def nsPerDay : Int := 86400000000000

/-- `Timedelta.days` of a nanosecond difference. -/
def timedelta_days (delta : Int) : Int := delta.fdiv nsPerDay

/-- `cube_df['days_since_join'] = (today - cube_df['join_date']).dt.days`,
for one row: `today` and `join_date` are nanosecond timestamps. -/
def days_since_join (today join_date : Int) : Int :=
  timedelta_days (today - join_date)

/-- `calculate_time_elapsed(join_date)`: recomputes the day delta from the
shared `today`, then formats a years/months label with 365-day years and
30-day months. -/
def calculate_time_elapsed (today join_date : Int) : String :=
  let delta_days := timedelta_days (today - join_date)
  let years := delta_days.fdiv 365
  let remaining_days := delta_days.fmod 365
  let months := remaining_days.fdiv 30
  s!"{years} year(s) and {months} month(s)"

/-- C5: `days_since_join` is exactly the whole-day count of the interval
from the join date to the run's reference instant — the unique `d` with
`d` days ≤ `today − join_date` < `d+1` days — and when the join date lies
in the future of the reference instant the value is negative, not clamped
to zero. -/
theorem days_since_join_whole_days (today join_date : Int) :
    (nsPerDay * days_since_join today join_date ≤ today - join_date ∧
      today - join_date <
        nsPerDay * (days_since_join today join_date + 1)) ∧
    (today < join_date → days_since_join today join_date < 0) := by
  have hadd := Int.fdiv_add_fmod (today - join_date) nsPerDay
  have hpos : (0 : Int) < nsPerDay := by decide
  have hnn := Int.fmod_nonneg' (today - join_date) hpos
  have hlt := Int.fmod_lt_of_pos (today - join_date) hpos
  rw [days_since_join, timedelta_days]
  rw [nsPerDay] at hadd hnn hlt ⊢
  constructor
  · omega
  · intro hfut
    omega

/-- C5 witness: reference 2 days plus 1 ns after epoch, join at epoch:
2 whole days; join 1 ns after the reference gives a negative value. -/
theorem days_since_join_whole_days_witness :
    (nsPerDay * days_since_join 172800000000001 0 ≤ 172800000000001 - 0 ∧
      172800000000001 - 0 <
        nsPerDay * (days_since_join 172800000000001 0 + 1)) ∧
    ((0 : Int) < 1 → days_since_join 0 1 < 0) :=
  ⟨(days_since_join_whole_days 172800000000001 0).1,
    (days_since_join_whole_days 0 1).2⟩

/-- C9: for a row whose day delta is a non-negative `d`, the elapsed-time
label is `"<d÷365> year(s) and <(d mod 365)÷30> month(s)"` with natural
integer division — remainder days are dropped. -/
theorem calculate_time_elapsed_spec (today join_date : Int) (d : Nat)
    (h : days_since_join today join_date = (d : Int)) :
    calculate_time_elapsed today join_date =
      s!"{d / 365} year(s) and {d % 365 / 30} month(s)" := by
  rw [days_since_join] at h
  rw [calculate_time_elapsed]
  rw [h]
  have hy : ((d : Int)).fdiv 365 = ((d / 365 : Nat) : Int) :=
    (Int.ofNat_fdiv d 365).symm
  have hm1 : ((d : Int)).fmod 365 = ((d % 365 : Nat) : Int) := by
    rw [Int.fmod_eq_emod _ (by omega)]
    exact (Int.ofNat_emod d 365).symm
  have hm : (((d : Int)).fmod 365).fdiv 30 =
      ((d % 365 / 30 : Nat) : Int) := by
    rw [hm1]
    exact (Int.ofNat_fdiv (d % 365) 30).symm
  rw [hy, hm]
  have hcast : ∀ n : Nat, toString ((n : Nat) : Int) = toString n :=
    fun n => rfl
  simp only [hcast]

/-- C9 witness: 760 days elapsed formats as 2 years and 1 month. -/
theorem calculate_time_elapsed_spec_witness :
    days_since_join 65664000000000000 0 = ((760 : Nat) : Int) ∧
    calculate_time_elapsed 65664000000000000 0 =
      "2 year(s) and 1 month(s)" := by
  have h1 : days_since_join 65664000000000000 0 = ((760 : Nat) : Int) := by
    decide
  refine ⟨h1, ?_⟩
  have h2 := calculate_time_elapsed_spec 65664000000000000 0 760 h1
  rw [h2]
  rfl

/-! ### `pd.to_datetime` (join-date conversion)

`cube_df['join_date'] = pd.to_datetime(cube_df['join_date'])` runs with
the pandas default `errors='raise'`: missing cells (`NaN`) become the
`NaT` sentinel, while a string cell that fails to parse raises a
`ValueError` that aborts the whole script. -/

/-- Split a character list on `'-'` separators. -/
def split_dashes : List Char → List (List Char)
  | [] => [[]]
  | c :: rest =>
    if c = '-' then [] :: split_dashes rest
    else
      match split_dashes rest with
      | [] => [[c]]
      | part :: parts => (c :: part) :: parts

/-- Parse a non-empty all-digit character list as a natural number. -/
def digits_to_nat? (cs : List Char) : Option Nat :=
  if cs ≠ [] ∧ cs.all (·.isDigit) then
    some (cs.foldl (fun n c => n * 10 + (c.toNat - '0'.toNat)) 0)
  else none

/-- Modelled from the pandas library call `pd.to_datetime` on a single
cell: an ISO `YYYY-MM-DD` string yields its `(year, month, day)`
components; any other string fails to parse.  (The repository's prepared
CSVs carry ISO dates; only the parse/fail distinction matters here.) -/
def parse_date (s : String) : Option (Nat × Nat × Nat) :=
  match split_dashes s.toList with
  | [y, m, d] =>
    match digits_to_nat? y, digits_to_nat? m, digits_to_nat? d with
    | some yn, some mn, some dn =>
      if 1 ≤ mn ∧ mn ≤ 12 ∧ 1 ≤ dn ∧ dn ≤ 31 then some (yn, mn, dn)
      else none
    | _, _, _ => none
  | _ => none

/-- `pd.to_datetime` over the whole `join_date` column, default
`errors='raise'`: `NaN` ↦ `NaT` (`none`), parseable string ↦ timestamp,
unparseable string ↦ `ValueError` carrying the offending cell. -/
def to_datetime :
    List (Option String) → Except String (List (Option (Nat × Nat × Nat)))
  | [] => .ok []
  | none :: rest => (to_datetime rest).map (none :: ·)
  | some s :: rest =>
    match parse_date s with
    | some dt => (to_datetime rest).map (some dt :: ·)
    | none => .error s

/-- `cube_df["year"] = cube_df["join_date"].dt.year` for one cell: the
year component; `NaT` propagates to `NaN`. -/
def year_of (jd : Option (Nat × Nat × Nat)) : Option Nat := jd.map (·.1)

/-- C6, counterexample: a fact table whose `join_date` column holds an
unparseable string makes `pd.to_datetime` raise — the run aborts and no
row (with or without sentinel attributes) is produced, contradicting
"a parse failure never causes the row to be dropped and never aborts the
run". -/
theorem to_datetime_counterexample :
    to_datetime [some "2023-01-01", some "not-a-date"] =
      .error "not-a-date" := by
  rfl

/-- C6 (amended): only MISSING `join_date` cells get sentinel treatment —
they convert to `NaT`, are retained in place, and their derived `year` is
null; a non-missing string that fails to parse aborts the whole
conversion with an error. -/
theorem to_datetime_missing_retained (col : List (Option String)) :
    ((∀ s, some s ∈ col → (parse_date s).isSome) →
      to_datetime col = .ok (col.map (fun c => c.bind parse_date)) ∧
      ∀ c ∈ col, c = none → year_of (c.bind parse_date) = none) ∧
    (∀ s, some s ∈ col → parse_date s = none →
      ∃ e, to_datetime col = .error e) := by
  induction col with
  | nil =>
    refine ⟨fun _ => ⟨rfl, by simp⟩, by simp⟩
  | cons c rest ih =>
    constructor
    · intro hall
      have hrest := (ih.1 (fun s hs => hall s (List.mem_cons_of_mem _ hs)))
      refine ⟨?_, ?_⟩
      · cases c with
        | none => rw [to_datetime, hrest.1]; rfl
        | some s =>
          have hsome := hall s (List.mem_cons_self _ _)
          obtain ⟨dt, hdt⟩ := Option.isSome_iff_exists.mp hsome
          rw [to_datetime]
          rw [hdt, hrest.1]
          simp [hdt, Except.map]
      · intro c0 hc0 hnone
        subst hnone
        rfl
    · intro s hs hfail
      rcases List.mem_cons.mp hs with heq | hmem
      · subst heq
        exact ⟨s, by rw [to_datetime, hfail]⟩
      · obtain ⟨e, he⟩ := ih.2 s hmem hfail
        cases c with
        | none => exact ⟨e, by rw [to_datetime, he]; rfl⟩
        | some s0 =>
          cases hp : parse_date s0 with
          | none => exact ⟨s0, by rw [to_datetime, hp]⟩
          | some dt => exact ⟨e, by rw [to_datetime, hp, he]; rfl⟩

/-- C6 witness: a column with one ISO date and one missing cell converts
to a timestamp and a retained `NaT` whose derived year is null; adding an
unparseable string makes the conversion abort. -/
theorem to_datetime_missing_retained_witness :
    (to_datetime [some "2023-01-01", none] =
        .ok [some (2023, 1, 1), none] ∧
      year_of ((none : Option String).bind parse_date) = none) ∧
    ∃ e, to_datetime [some "2023-01-01", some "nope", none] =
      .error e := by
  constructor
  · have h := (to_datetime_missing_retained [some "2023-01-01", none]).1
      (by
        intro s hs
        have hseq : s = "2023-01-01" := by simpa using hs
        subst hseq
        decide)
    refine ⟨?_, h.2 none (by simp) rfl⟩
    rw [h.1]
    rfl
  · exact (to_datetime_missing_retained
      [some "2023-01-01", some "nope", none]).2 "nope" (by simp)
      (by decide)

/-! ### Cube aggregation

`cube = cube_df.groupby(['category', 'city', 'year', 'sales_amount'])
.agg({...}).reset_index()`.  pandas `groupby` defaults to `dropna=True`:
a row with a null value in any grouping column belongs to no group. -/

/-- A fully derived fact row as fed to the final `groupby` (only the
columns the aggregation touches). -/
structure Fact where
  category : Option String
  city : Option String
  year : Option Int
  sales_amount : Option Rat
  days_since_join : Option Int
  time_since_join : Option String
deriving DecidableEq

/-- A fully non-null composite grouping key value. -/
structure GroupKey where
  category : String
  city : String
  year : Int
  sales_amount : Rat
deriving DecidableEq

/-- The composite grouping key; `none` as soon as any component is
missing — such rows are dropped by `groupby`. -/
def groupKey (f : Fact) : Option GroupKey :=
  match f.category, f.city, f.year, f.sales_amount with
  | some c, some ci, some y, some a => some ⟨c, ci, y, a⟩
  | _, _, _, _ => none

/-- One output row of the aggregated cube, after column flattening. -/
structure CubeRow where
  category : String
  city : String
  year : Int
  sales_amount : Rat
  sales_amount_sum : Rat
  sales_amount_mean : Rat
  sales_amount_count : Nat
  days_since_join_first : Option Int
  time_since_join_first : Option String
deriving DecidableEq

/-- The member rows of the group keyed by `k`. -/
def groupRows (facts : List Fact) (k : GroupKey) : List Fact :=
  facts.filter (fun f => groupKey f == some k)

/-- The aggregates of one group: `sum`/`mean`/`count` of `sales_amount`
(pandas counts and averages over non-null cells) and the first non-null
`days_since_join` / `time_since_join` of the group. -/
def mkCubeRow (facts : List Fact) (k : GroupKey) : CubeRow :=
  let rows := groupRows facts k
  let amounts := rows.filterMap (·.sales_amount)
  { category := k.category, city := k.city, year := k.year,
    sales_amount := k.sales_amount,
    sales_amount_sum := amounts.sum,
    sales_amount_mean := amounts.sum / amounts.length,
    sales_amount_count := amounts.length,
    days_since_join_first := (rows.filterMap (·.days_since_join)).head?,
    time_since_join_first := (rows.filterMap (·.time_since_join)).head? }

/-- The aggregated cube: one row per distinct fully-non-null key. -/
def cube (facts : List Fact) : List CubeRow :=
  ((facts.filterMap groupKey).dedup).map (mkCubeRow facts)

theorem groupKey_eq_some {f : Fact} {k : GroupKey}
    (h : groupKey f = some k) :
    f.category = some k.category ∧ f.city = some k.city ∧
    f.year = some k.year ∧ f.sales_amount = some k.sales_amount := by
  rcases f with ⟨c, ci, y, a, d, t⟩
  cases c <;> cases ci <;> cases y <;> cases a <;>
    simp only [groupKey] at h
  all_goals (cases h <;> exact ⟨rfl, rfl, rfl, rfl⟩)

/-- Group sizes are occurrence counts in the key column. -/
theorem groupRows_length_eq_count (facts : List Fact) (k : GroupKey) :
    (groupRows facts k).length = (facts.filterMap groupKey).count k := by
  induction facts with
  | nil => rfl
  | cons f t ih =>
    rw [groupRows] at ih ⊢
    cases hf : groupKey f with
    | none => simp [List.filter_cons, List.filterMap_cons, hf, ih]
    | some a =>
      by_cases hak : a = k
      · subst hak
        simp [List.filter_cons, List.filterMap_cons, hf, List.count_cons, ih]
      · simp [List.filter_cons, List.filterMap_cons, hf, hak,
          List.count_cons, ih]

theorem length_filterMap_of_isSome {α β : Type} (g : α → Option β) :
    ∀ l : List α, (∀ a ∈ l, (g a).isSome) →
      (l.filterMap g).length = l.length
  | [], _ => rfl
  | a :: t, h => by
    obtain ⟨b, hb⟩ :=
      Option.isSome_iff_exists.mp (h a (List.mem_cons_self _ _))
    rw [List.filterMap_cons, hb]
    simp [length_filterMap_of_isSome g t
      (fun x hx => h x (List.mem_cons_of_mem _ hx))]

/-- Within a group, every row's `sales_amount` is non-null (it is part of
the key), so the non-null count is the group size. -/
theorem groupRows_amounts_length (facts : List Fact) (k : GroupKey) :
    ((groupRows facts k).filterMap (·.sales_amount)).length =
      (groupRows facts k).length := by
  apply length_filterMap_of_isSome
  intro f hf
  have hmem := List.of_mem_filter hf
  have hk : groupKey f = some k := by simpa using hmem
  have ha := (groupKey_eq_some hk).2.2.2
  simp [ha]

/-- The key column is as long as the set of rows with a fully non-null
key. -/
theorem length_filterMap_groupKey (facts : List Fact) :
    (facts.filterMap groupKey).length =
      (facts.filter (fun f => (groupKey f).isSome)).length := by
  induction facts with
  | nil => rfl
  | cons f t ih =>
    cases hf : groupKey f <;>
      simp [List.filterMap_cons, List.filter_cons, hf, ih]

/-- C1, counterexample: a fact table consisting of one row whose
`category` is null produces an empty cube — the counts sum to 0, not to
the row count 1, so aggregation does lose rows. -/
theorem cube_count_sum_counterexample :
    ((cube [⟨none, some "Lyon", some 2023, some 42, some 730,
        some "2 year(s) and 0 month(s)"⟩]).map
      (·.sales_amount_count)).sum = 0 ∧
    ([⟨none, some "Lyon", some 2023, some 42, some 730,
        some "2 year(s) and 0 month(s)"⟩] : List Fact).length = 1 ∧
    (0 : Nat) ≠ 1 := by
  exact ⟨rfl, rfl, by decide⟩

/-- C1 (amended): the cube's `count` aggregates sum to the number of fact
rows whose grouping-key columns are all non-null; rows with a null key
component are excluded from every group (and only those are lost). -/
theorem cube_count_sum (facts : List Fact) :
    ((cube facts).map (·.sales_amount_count)).sum =
      (facts.filter (fun f => (groupKey f).isSome)).length := by
  rw [cube, List.map_map]
  have hrow : ∀ k ∈ (facts.filterMap groupKey).dedup,
      ((fun r : CubeRow => r.sales_amount_count) ∘ mkCubeRow facts) k =
        (facts.filterMap groupKey).count k := by
    intro k _
    simp only [Function.comp, mkCubeRow]
    rw [groupRows_amounts_length, groupRows_length_eq_count]
  rw [List.map_congr_left hrow, List.sum_map_count_dedup_eq_length]
  exact length_filterMap_groupKey facts

/-- C10: a fact row with any null grouping-key component is invisible to
the aggregation — the cube of a table containing such a row equals the
cube of the table with the row removed, so no cube row accounts for it. -/
theorem cube_drops_null_key_rows (l1 l2 : List Fact) (f : Fact)
    (h : groupKey f = none) :
    cube (l1 ++ f :: l2) = cube (l1 ++ l2) := by
  have hkeys : (l1 ++ f :: l2).filterMap groupKey =
      (l1 ++ l2).filterMap groupKey := by
    simp [List.filterMap_append, List.filterMap_cons, h]
  have hgroups : ∀ k, groupRows (l1 ++ f :: l2) k =
      groupRows (l1 ++ l2) k := by
    intro k
    simp [groupRows, List.filter_append, List.filter_cons, h]
  rw [cube, cube, hkeys]
  apply List.map_congr_left
  intro k _
  simp only [mkCubeRow, hgroups]

/-- C10 witness: appending a row with null `city` to a one-row table
leaves the cube unchanged. -/
theorem cube_drops_null_key_rows_witness :
    groupKey ⟨some "Books", none, some 2023, some 7, some 10,
      some "0 year(s) and 0 month(s)"⟩ = none ∧
    cube [⟨some "Books", some "Lyon", some 2023, some 42, some 730,
            some "2 year(s) and 0 month(s)"⟩,
          ⟨some "Books", none, some 2023, some 7, some 10,
            some "0 year(s) and 0 month(s)"⟩] =
      cube [⟨some "Books", some "Lyon", some 2023, some 42, some 730,
        some "2 year(s) and 0 month(s)"⟩] := by
  constructor
  · rfl
  · have h := cube_drops_null_key_rows
      [⟨some "Books", some "Lyon", some 2023, some 42, some 730,
        some "2 year(s) and 0 month(s)"⟩] []
      ⟨some "Books", none, some 2023, some 7, some 10,
        some "0 year(s) and 0 month(s)"⟩ rfl
    simpa using h

end SmartStore
